import Mathlib

/-!
Verification of the report normalization and unification layer of the
devsecopsSadki/projetDevsecopsAI repository.

The Python sources under `src/parsers/` are shallowly embedded:

* JSON documents (the result of `json.load`) are the inductive `JSON`
  (JSON numbers are modelled as integers; no claim depends on the
  fractional part of a number).
* Python dictionaries are association lists `List (String × JSON)`;
  `json.load` produces dictionaries with pairwise distinct keys, so a
  first-match lookup is faithful.
* A Python expression that may raise is a value of `PyM α`
  (`Except PyError α`); each primitive operation used by the sources
  (`d.get`, `x in y`, `s.split`, `s.upper()`, `s.strip()`, indexing,
  iteration, `str()` conversion) is embedded by a helper with that
  operation's real semantics, raising where CPython raises.
* The outcome of `open` + `json.load` on a path is abstracted as
  `ParseInput`: the file is missing, its content is not valid JSON, or
  it decodes to a JSON value.  File writes are recorded as a
  `WriteEffect` (directory creation flag plus the written content).
-/

/-- A JSON value as produced by `json.load`. Numbers are modelled as
integers. -/
inductive JSON where
  | null : JSON
  | bool : Bool → JSON
  | num : Int → JSON
  | str : String → JSON
  | arr : List JSON → JSON
  | obj : List (String × JSON) → JSON
deriving Repr

/-- The Python exceptions raised by the embedded operations. -/
inductive PyError where
  | typeError : PyError
  | attributeError : PyError
  | keyError : PyError
  | indexError : PyError
  | fileNotFoundError : PyError
  | jsonDecodeError : PyError
deriving Repr, DecidableEq

/-- A Python computation that may raise. -/
abbrev PyM (α : Type) : Type := Except PyError α

/-- First-match lookup in a Python dictionary (keys are distinct). -/
def jlookup : List (String × JSON) → String → Option JSON
  | [], _ => none
  | (k, v) :: rest, key => if k = key then some v else jlookup rest key

/-- `d.get(key, default)` on a dictionary known to be one (total). -/
def jget (fields : List (String × JSON)) (k : String) (d : JSON) : JSON :=
  (jlookup fields k).getD d

/-- Python truthiness of a JSON value. -/
def truthy : JSON → Bool
  | .null => false
  | .bool b => b
  | .num n => n != 0
  | .str s => !s.data.isEmpty
  | .arr xs => !xs.isEmpty
  | .obj kvs => !kvs.isEmpty

/-- `a or b`: the left operand when truthy, otherwise the right. -/
def pyOr (a b : JSON) : JSON := if truthy a then a else b

/-- Python `==` between JSON values (`True == 1`, `False == 0`;
containers compare elementwise — dictionary comparison is modelled as
ordered association-list comparison, which agrees with CPython on the
duplicate-free, identically-ordered dictionaries our code compares).
The fuel only limits container nesting depth (scalar cases ignore it);
`pyEq` supplies a budget mirroring CPython's recursion limit, and
every comparison the sources perform is between scalars. -/
def pyEqFuel : Nat → JSON → JSON → Bool
  | _, .null, .null => true
  | _, .bool a, .bool b => a == b
  | _, .bool a, .num n => (if a then (1 : Int) else 0) == n
  | _, .num n, .bool a => n == (if a then (1 : Int) else 0)
  | _, .num n, .num m => n == m
  | _, .str s, .str t => s == t
  | fuel + 1, .arr xs, .arr ys =>
      xs.length == ys.length &&
        (List.zip xs ys).all (fun p => pyEqFuel fuel p.1 p.2)
  | fuel + 1, .obj kvs, .obj lws =>
      kvs.length == lws.length &&
        (List.zip kvs lws).all (fun p => p.1.1 == p.2.1 && pyEqFuel fuel p.1.2 p.2.2)
  | _, _, _ => false

/-- Python `==` (see `pyEqFuel`). -/
def pyEq (a b : JSON) : Bool := pyEqFuel 1000 a b

/-- `v.get(key, default)`: raises `AttributeError` when the receiver is
not a dictionary. -/
def pyGetD : JSON → String → JSON → PyM JSON
  | .obj kvs, k, d => pure (jget kvs k d)
  | _, _, _ => throw .attributeError

/-- `v[key]` with a string key. -/
def pyGetItemS : JSON → String → PyM JSON
  | .obj kvs, k =>
      match jlookup kvs k with
      | some v => pure v
      | none => throw .keyError
  | _, _ => throw .typeError

/-- `v[0]`: first element of a sequence. A dictionary raises `KeyError`
(JSON object keys are strings, never the integer `0`). -/
def pyGetItem0 : JSON → PyM JSON
  | .arr (x :: _) => pure x
  | .arr [] => throw .indexError
  | .str s =>
      match s.data with
      | c :: _ => pure (.str (String.singleton c))
      | [] => throw .indexError
  | .obj _ => throw .keyError
  | _ => throw .typeError

/-- Does the first list occur as a prefix of the second? -/
def listStarts : List Char → List Char → Bool
  | [], _ => true
  | _ :: _, [] => false
  | a :: as, b :: bs => a == b && listStarts as bs

/-- Does the first list occur as a contiguous sublist of the second?
(Python's `sub in s` on strings.) -/
def listHasSub (n : List Char) : List Char → Bool
  | [] => n.isEmpty
  | b :: bs => listStarts n (b :: bs) || listHasSub n bs

/-- `needle in hay`: substring test on strings, membership on lists,
key membership on dictionaries; other receivers raise `TypeError`
(as does an unhashable needle probed against a dictionary). -/
def pyIn (needle : JSON) (hay : JSON) : PyM Bool :=
  match hay with
  | .str h =>
      match needle with
      | .str n => pure (listHasSub n.data h.data)
      | _ => throw .typeError
  | .arr xs => pure (xs.any (fun x => pyEq needle x))
  | .obj kvs =>
      match needle with
      | .str n => pure (kvs.any (fun kv => kv.1 == n))
      | .arr _ => throw .typeError
      | .obj _ => throw .typeError
      | _ => pure false
  | _ => throw .typeError

/-- Iteration order of a `for` loop over a JSON value: list elements,
characters of a string, keys of a dictionary; the rest raise. -/
def pyIterList : JSON → PyM (List JSON)
  | .arr xs => pure xs
  | .str s => pure (s.data.map (fun c => .str (String.singleton c)))
  | .obj kvs => pure (kvs.map (fun kv => .str kv.1))
  | _ => throw .typeError

/-- `s.split(sep)` for a single-character separator (the sources only
split on a colon): `"".split(":") == [""]`, `" : ".split(":")` keeps
empty pieces. -/
def pySplitChar (sep : Char) : List Char → List (List Char)
  | [] => [[]]
  | c :: rest =>
      if c == sep then [] :: pySplitChar sep rest
      else
        match pySplitChar sep rest with
        | [] => [[c]]
        | w :: ws => (c :: w) :: ws

/-- `s.split(sep)` (string receivers only; single-character separator). -/
def pySplit : JSON → Char → PyM (List String)
  | .str s, sep => pure ((pySplitChar sep s.data).map String.mk)
  | _, _ => throw .attributeError

/-- `s.upper()` character by character (ASCII letters — the sources
only uppercase ASCII severity words). -/
def strUpper (s : String) : String := String.mk (s.data.map Char.toUpper)

/-- `s.upper()` (string receivers only). -/
def pyUpper : JSON → PyM String
  | .str s => pure (strUpper s)
  | _ => throw .attributeError

/-- The whitespace set of Python's `str.strip()` (space, tab,
newline, carriage return, vertical tab, form feed). -/
def pyIsSpace (c : Char) : Bool :=
  c == ' ' || c == Char.ofNat 9 || c == Char.ofNat 10 || c == Char.ofNat 13 ||
    c == Char.ofNat 11 || c == Char.ofNat 12

/-- `s.strip()`: drop leading and trailing whitespace. -/
def strStrip (s : String) : String :=
  String.mk (((s.data.dropWhile pyIsSpace).reverse.dropWhile pyIsSpace).reverse)

/-- `s.strip()` (string receivers only). -/
def pyStrip : JSON → PyM String
  | .str s => pure (strStrip s)
  | _ => throw .attributeError

/-- A single-quote character, used by `pyReprFuel`. -/
def squote : String := String.singleton (Char.ofNat 39)

/-- Comma-separated join, as Python renders container elements. -/
def commaJoin : List String → String
  | [] => ""
  | [x] => x
  | x :: y :: xs => x ++ ", " ++ commaJoin (y :: xs)

/-- Python `repr` of a JSON value, with explicit recursion fuel so the
definition is structurally recursive (and hence kernel-evaluable);
`pyRepr` below supplies fuel that always suffices.  String escaping
inside containers is not modelled; no claim renders a container. -/
def pyReprFuel : Nat → JSON → String
  | _, .null => "None"
  | _, .bool true => "True"
  | _, .bool false => "False"
  | _, .num n => toString n
  | _, .str s => squote ++ s ++ squote
  | 0, .arr _ => ""
  | 0, .obj _ => ""
  | fuel + 1, .arr xs => "[" ++ commaJoin (xs.map (pyReprFuel fuel)) ++ "]"
  | fuel + 1, .obj kvs =>
      "\x7b" ++
        commaJoin (kvs.map (fun kv =>
          squote ++ kv.1 ++ squote ++ ": " ++ pyReprFuel fuel kv.2)) ++
      "\x7d"

/-- Python `repr`.  The fuel only limits container nesting depth (the
scalar cases of `pyReprFuel` ignore it); the budget of 1000 mirrors
CPython's default recursion limit, beyond which `repr` itself aborts.
No claim renders a container, so only the scalar cases matter. -/
def pyRepr (j : JSON) : String := pyReprFuel 1000 j

/-- Python `str()` as used by f-string interpolation. -/
def pyStr : JSON → String
  | .str s => s
  | v => pyRepr v

/-- Left-to-right effectful `map`, as a Python `for` loop appending to
an accumulator: the first raising element aborts the loop. -/
def pyMapSeq {α β : Type} (f : α → PyM β) : List α → PyM (List β)
  | [] => pure []
  | x :: xs => do
      let y ← f x
      let ys ← pyMapSeq f xs
      pure (y :: ys)

/-- Left-to-right effectful filter (a list comprehension with a
possibly-raising predicate). -/
def pyFilterSeq {α : Type} (p : α → PyM Bool) : List α → PyM (List α)
  | [] => pure []
  | x :: xs => do
      let b ← p x
      let rest ← pyFilterSeq p xs
      pure (if b then x :: rest else rest)

/-- The outcome of `open(path)` + `json.load(f)`: the file is missing,
its content is not valid JSON, or it decodes to a JSON value.  The two
failure constructors stand for every exception those two calls can
raise. -/
inductive ParseInput where
  | missing : ParseInput
  | badJSON : ParseInput
  | ok : JSON → ParseInput

/-- A whole-file write: `Path(out).parent.mkdir(parents=True,
exist_ok=True)` followed by `Path(out).write_text(content)`. -/
structure WriteEffect where
  mkdirParents : Bool
  content : String
deriving Repr

-- A few sanity checks of the Python-semantics helpers.

namespace ParserInput

/-!
Embedding of `src/parsers/sast/parser_input.py`.
-/

/-- The loop body of `parse_sonarqube` (`parser_input.py:35-53`): one
`issue` record mapped to a unified vulnerability dictionary. -/
def parseSonarIssue (issue : JSON) : PyM JSON := do
  let component ← pyGetD issue "component" (.str "")
  let hasColon ← pyIn (.str ":") component
  let file_path ←
    if hasColon then do
      let parts ← pySplit component (Char.ofNat 58)
      pure (JSON.str (parts.getLastD ""))
    else
      pure component
  let line ← pyGetD issue "line" (.num 0)
  let location :=
    if truthy line then JSON.str (pyStr file_path ++ ":" ++ pyStr line)
    else file_path
  let key ← pyGetD issue "key" (.str "N/A")
  let message ← pyGetD issue "message" (.str "No title")
  let message2 ← pyGetD issue "message" (.str "No description")
  let severity ← pyGetD issue "severity" (.str "UNKNOWN")
  let rule ← pyGetD issue "rule" (.str "N/A")
  let ruleForRec ← pyGetD issue "rule" (.str "this issue")
  pure (.obj
    [("type", .str "SAST"),
     ("id", key),
     ("title", message),
     ("description", message2),
     ("severity", severity),
     ("location", location),
     ("file", file_path),
     ("line", line),
     ("rule", rule),
     ("recommendation",
      .str ("Fix " ++ pyStr ruleForRec ++ " - Refer to SonarQube documentation"))])

/-- `parse_sonarqube` (`parser_input.py:32-55`). -/
def parse_sonarqube (data : JSON) : PyM (List JSON) := do
  let issues ← pyGetD data "issues" (.arr [])
  let issueList ← pyIterList issues
  pyMapSeq parseSonarIssue issueList

/-- The loop body of `parse_sarif` (`parser_input.py:62-94`): one
`result` record mapped to a unified vulnerability dictionary. -/
def parseSarifResult (result : JSON) : PyM JSON := do
  let locations ← pyGetD result "locations" (.arr [.obj []])
  let flv ←
    if truthy locations then do
      let loc0 ← pyGetItem0 locations
      let physical ← pyGetD loc0 "physicalLocation" (.obj [])
      let artifact ← pyGetD physical "artifactLocation" (.obj [])
      let region ← pyGetD physical "region" (.obj [])
      let file_path ← pyGetD artifact "uri" (.str "Unknown")
      let line ← pyGetD region "startLine" (.num 0)
      let location :=
        if truthy line then JSON.str (pyStr file_path ++ ":" ++ pyStr line)
        else file_path
      pure (file_path, line, location)
    else
      pure (JSON.str "Unknown", JSON.num 0, JSON.str "Unknown")
  let message ← pyGetD result "message" (.obj [])
  let title ← pyGetD message "text" (.str "No title")
  let rule_id ← pyGetD result "ruleId" (.str "N/A")
  let levelRaw ← pyGetD result "level" (.str "warning")
  let severity ← pyUpper levelRaw
  pure (.obj
    [("type", .str "SAST"),
     ("id", rule_id),
     ("title", title),
     ("description", title),
     ("severity", .str severity),
     ("location", flv.2.2),
     ("file", flv.1),
     ("line", flv.2.1),
     ("rule", rule_id),
     ("recommendation", .str ("Review and fix " ++ pyStr rule_id))])

/-- `parse_sarif` (`parser_input.py:58-96`): iterate `runs[]`, then
`results[]` within each run, accumulating in document order. -/
def parse_sarif (data : JSON) : PyM (List JSON) := do
  let runs ← pyGetD data "runs" (.arr [])
  let runList ← pyIterList runs
  let nested ← pyMapSeq
    (fun run => do
      let results ← pyGetD run "results" (.arr [])
      let resultList ← pyIterList results
      pyMapSeq parseSarifResult resultList)
    runList
  pure nested.flatten

/-- The dictionary built for one generic item (`parser_input.py:107-115`). -/
def genericItemVuln (item : List (String × JSON)) : JSON :=
  .obj
    [("type", .str "SAST"),
     ("id", jget item "id" (.str "N/A")),
     ("title", pyOr (jget item "title" .null) (jget item "message" (.str "No title"))),
     ("description",
      pyOr (jget item "description" .null) (jget item "message" (.str "No description"))),
     ("severity", jget item "severity" (.str "UNKNOWN")),
     ("location", pyOr (jget item "location" .null) (jget item "file" (.str "Unknown"))),
     ("recommendation", jget item "recommendation" (.str "Review and fix this issue"))]

/-- `parse_generic` (`parser_input.py:99-118`): for every list-valued
top-level key, every dictionary element becomes a finding; a non-dict
input yields the empty list.  This parser never raises. -/
def parse_generic (data : JSON) : List JSON :=
  match data with
  | .obj kvs =>
      (kvs.map (fun kv =>
        match kv.2 with
        | .arr items =>
            items.filterMap (fun it =>
              match it with
              | .obj fields => some (genericItemVuln fields)
              | _ => none)
        | _ => [])).flatten
  | _ => []

/-- The format-detection body of `parse_report` (`parser_input.py:22-29`),
applied to the already-decoded JSON document. -/
def parse_report_data (data : JSON) : PyM (List JSON) := do
  let hasIssues ← pyIn (.str "issues") data
  if hasIssues then
    parse_sonarqube data
  else
    let hasSchema ← pyIn (.str "$schema") data
    let schemaSarif ←
      if hasSchema then do
        let sv ← pyGetD data "$schema" (.str "")
        pyIn (.str "sarif") sv
      else
        pure false
    if schemaSarif then
      parse_sarif data
    else
      let hasRuns ← pyIn (.str "runs") data
      if hasRuns then
        parse_sarif data
      else
        pure (parse_generic data)

/-- `parse_report` (`parser_input.py:12-29`): a missing file raises
`FileNotFoundError`; the body has no exception handler, so a JSON
decoding failure propagates; otherwise the document is routed by
`parse_report_data`. -/
def parse_report : ParseInput → PyM (List JSON)
  | .missing => throw .fileNotFoundError
  | .badJSON => throw .jsonDecodeError
  | .ok data => parse_report_data data

end ParserInput

/-- `MAX_CHARS_PER_ITEM` (`parsast.py:11`, `pardast.py:11`,
`dast/pardast.py:10` — the same constant in all three files). -/
def MAX_CHARS_PER_ITEM : Nat := 5000

/-- The per-block truncation duplicated verbatim at `parsast.py:25-26`,
`pardast.py:25-26` and `dast/pardast.py:71-72`:
`text[:MAX_CHARS_PER_ITEM-12] + "\n[...truncated]\n"` when the block
exceeds the ceiling.  Python slices strings by code point, as
`List.take` on `String.data` does. -/
def truncateItem (text : String) : String :=
  if text.length > MAX_CHARS_PER_ITEM then
    String.mk (text.data.take (MAX_CHARS_PER_ITEM - 12)) ++ "\n[...truncated]\n"
  else
    text

namespace Parsast

/-!
Embedding of `src/parsers/parsast.py` (the SAST formatter).
-/

/-- `format_sast` (`parsast.py:13-27`). -/
def format_sast (v : JSON) (idx : Nat) : PyM String := do
  let t1 ← pyGetD v "title" .null
  let t2 ← pyGetD v "id" .null
  let title := pyOr t1 (pyOr t2 (.str "SAST finding"))
  let d1 ← pyGetD v "description" .null
  let desc ← pyStrip (pyOr d1 (.str ""))
  let l1 ← pyGetD v "location" .null
  let loc := pyOr l1 (.str "N/A")
  let r1 ← pyGetD v "recommendation" .null
  let rec1 := pyOr r1 (.str "Aucune recommandation fournie.")
  let text :=
    "--- Finding #" ++ toString idx ++ " ---\n" ++
    "Titre: " ++ pyStr title ++ "\n" ++
    "Emplacement: " ++ pyStr loc ++ "\n" ++
    "Description: " ++ desc ++ "\n" ++
    "Recommandation: " ++ pyStr rec1 ++ "\n"
  pure (truncateItem text)

end Parsast

namespace Pardast

/-!
Embedding of `src/parsers/pardast.py` (the DAST formatter that feeds
off the unified SAST parser `parse_report`).
-/

/-- `format_dast` (`pardast.py:13-27`). -/
def format_dast (v : JSON) (idx : Nat) : PyM String := do
  let t1 ← pyGetD v "title" .null
  let t2 ← pyGetD v "id" .null
  let title := pyOr t1 (pyOr t2 (.str "DAST finding"))
  let d1 ← pyGetD v "description" .null
  let desc ← pyStrip (pyOr d1 (.str ""))
  let u1 ← pyGetD v "location" .null
  let uri := pyOr u1 (.str "N/A")
  let r1 ← pyGetD v "recommendation" .null
  let rec1 := pyOr r1 (.str "Vérifier la configuration et corriger la vulnérabilité.")
  let text :=
    "--- DAST Finding #" ++ toString idx ++ " ---\n" ++
    "Vulnerability: " ++ pyStr title ++ "\n" ++
    "Target (URL/Endpoint): " ++ pyStr uri ++ "\n" ++
    "Description: " ++ desc ++ "\n" ++
    "Recommendation: " ++ pyStr rec1 ++ "\n"
  pure (truncateItem text)

/-- The block-accumulation loop of `prepare_dast_text`
(`pardast.py:37-39`): each rendered block followed by the separator
`"\n"` appended to `parts`, starting at index 1. -/
def dastBlocks : List JSON → Nat → PyM String
  | [], _ => pure ""
  | v :: vs, i => do
      let s ← format_dast v i
      let rest ← dastBlocks vs (i + 1)
      pure (s ++ "\n" ++ rest)

/-- The header of `prepare_dast_text` (`pardast.py:32`). -/
def dastHeader : String := "Résumé DAST — tests dynamiques (formaté pour LLM)\n\n"

/-- The comprehension condition `v.get("type") == "DAST"`
(`pardast.py:31`). -/
def isDastPred (v : JSON) : PyM Bool := do
  let t ← pyGetD v "type" .null
  pure (pyEq t (.str "DAST"))

/-- `prepare_dast_text` (`pardast.py:29-42`): parse, filter on
`type == "DAST"`, then either the no-findings sentinel or the blocks;
parent directories are always created and the joined parts written. -/
def prepare_dast_text (inp : ParseInput) : PyM WriteEffect := do
  let vulns ← ParserInput.parse_report inp
  let dast ← pyFilterSeq isDastPred vulns
  let body ←
    if dast.isEmpty then
      pure "Aucune vulnérabilité DAST trouvée.\n"
    else
      dastBlocks dast 1
  pure ⟨true, dastHeader ++ body⟩

end Pardast

namespace DastPardast

/-!
Embedding of `src/parsers/dast/pardast.py` (the OWASP-ZAP DAST parser
and formatter).
-/

/-- The dictionary built for one ZAP alert (`dast/pardast.py:31-41`). -/
def zapAlertVuln (alert : JSON) : PyM JSON := do
  let title ← pyGetD alert "alert" (.str "Unknown vulnerability")
  let desc ← pyGetD alert "desc" (.str "")
  let instCond ← pyGetD alert "instances" .null
  let location ←
    if truthy instCond then do
      let insts ← pyGetD alert "instances" (.arr [.obj []])
      let inst0 ← pyGetItem0 insts
      pyGetD inst0 "uri" (.str "N/A")
    else
      pure (JSON.str "N/A")
  let solution ← pyGetD alert "solution"
    (.str "Vérifier la configuration et corriger la vulnérabilité.")
  let riskdesc ← pyGetD alert "riskdesc" (.str "Unknown")
  let confidence ← pyGetD alert "confidence" (.str "Unknown")
  let cweid ← pyGetD alert "cweid" (.str "N/A")
  let wascid ← pyGetD alert "wascid" (.str "N/A")
  pure (.obj
    [("type", .str "DAST"),
     ("title", title),
     ("description", desc),
     ("location", location),
     ("recommendation", solution),
     ("severity", riskdesc),
     ("confidence", confidence),
     ("cweid", cweid),
     ("wascid", wascid)])

/-- `parse_zap_json` (`dast/pardast.py:12-44`): the `try` block wraps
only `open` + `json.load` and its `except Exception` handler returns
the empty list for the two file-stage failures; the `site`/`alerts`
traversal sits after the handler, so an exception there propagates. -/
def parse_zap_json : ParseInput → PyM (List JSON)
  | .missing => pure []
  | .badJSON => pure []
  | .ok data => do
      let sites ← pyGetD data "site" (.arr [])
      let siteList ← pyIterList sites
      let nested ← pyMapSeq
        (fun site => do
          let alerts ← pyGetD site "alerts" (.arr [])
          let alertList ← pyIterList alerts
          pyMapSeq zapAlertVuln alertList)
        siteList
      pure nested.flatten

/-- `format_dast` (`dast/pardast.py:46-73`), with the optional CWE and
WASC lines appended before truncation. -/
def format_dast (v : JSON) (idx : Nat) : PyM String := do
  let t1 ← pyGetD v "title" .null
  let t2 ← pyGetD v "id" .null
  let title := pyOr t1 (pyOr t2 (.str "DAST finding"))
  let d1 ← pyGetD v "description" .null
  let desc ← pyStrip (pyOr d1 (.str ""))
  let u1 ← pyGetD v "location" .null
  let uri := pyOr u1 (.str "N/A")
  let r1 ← pyGetD v "recommendation" .null
  let rec1 := pyOr r1 (.str "Vérifier la configuration et corriger la vulnérabilité.")
  let severity ← pyGetD v "severity" (.str "Unknown")
  let confidence ← pyGetD v "confidence" (.str "Unknown")
  let text0 :=
    "--- DAST Finding #" ++ toString idx ++ " ---\n" ++
    "Vulnerability: " ++ pyStr title ++ "\n" ++
    "Severity: " ++ pyStr severity ++ "\n" ++
    "Confidence: " ++ pyStr confidence ++ "\n" ++
    "Target (URL/Endpoint): " ++ pyStr uri ++ "\n" ++
    "Description: " ++ desc ++ "\n" ++
    "Recommendation: " ++ pyStr rec1 ++ "\n"
  let cwe ← pyGetD v "cweid" .null
  let text1 :=
    if truthy cwe && !(pyEq cwe (.str "N/A")) then
      text0 ++ "CWE ID: " ++ pyStr cwe ++ "\n"
    else text0
  let wasc ← pyGetD v "wascid" .null
  let text2 :=
    if truthy wasc && !(pyEq wasc (.str "N/A")) then
      text1 ++ "WASC ID: " ++ pyStr wasc ++ "\n"
    else text1
  pure (truncateItem text2)

end DastPardast

namespace Parsca

/-!
Embedding of `src/parsers/parsca.py` (the Snyk SCA parser, the
severity sort and the SCA formatter).
-/

/-- The loop guard of `get_fixed_version` (`parsca.py:57`):
`version and version != False`.  (For a truthy value the `!= False`
comparison never fails, since the only values `==`-equal to `False`
are falsy.) -/
def upgradeCond (version : JSON) : Bool :=
  truthy version && !(pyEq version (.bool false))

/-- The `for version in reversed(upgrade_path)` loop of
`get_fixed_version` (`parsca.py:56-60`), applied to the already
reversed element list: first match returns, exhaustion falls through
to `"No fix available"`. -/
def findUpgrade : List JSON → JSON
  | [] => .str "No fix available"
  | v :: rest => if upgradeCond v then v else findUpgrade rest

/-- `get_fixed_version` (`parsca.py:48-60`). -/
def get_fixed_version (vuln : JSON) : PyM JSON := do
  let fixedIn ← pyGetD vuln "fixedIn" .null
  if truthy fixedIn then do
    let fi ← pyGetItemS vuln "fixedIn"
    pyGetItem0 fi
  else do
    let upgrade_path ← pyGetD vuln "upgradePath" (.arr [])
    let elems ← pyIterList upgrade_path
    pure (findUpgrade elems.reverse)

/-- The loop body of `parse_snyk_report` (`parsca.py:21-38`): one Snyk
vulnerability record mapped to the simplified SCA dictionary
(`severity` uppercased, `cvss` kept raw). -/
def parseSnykVuln (v : JSON) : PyM JSON := do
  let pkg ← pyGetD v "packageName" (.str "unknown")
  let cur ← pyGetD v "version" (.str "unknown")
  let recv ← get_fixed_version v
  let title ← pyGetD v "title" (.str "No title")
  let sevRaw ← pyGetD v "severity" (.str "unknown")
  let sev ← pyUpper sevRaw
  let ids ← pyGetD v "identifiers" (.obj [])
  let cveCond ← pyGetD ids "CVE" .null
  let cve ←
    if truthy cveCond then do
      let ids2 ← pyGetD v "identifiers" (.obj [])
      let cveList ← pyGetD ids2 "CVE" (.arr [.str "N/A"])
      pyGetItem0 cveList
    else
      pure (JSON.str "N/A")
  let cvss ← pyGetD v "cvssScore" .null
  pure (.obj
    [("package", pkg),
     ("current_version", cur),
     ("recommended_version", recv),
     ("title", title),
     ("severity", .str sev),
     ("cve", cve),
     ("cvss", cvss)])

/-- `parse_snyk_report` (`parsca.py:12-46`): the `try` wraps the whole
body but only `FileNotFoundError` and `json.JSONDecodeError` are
handled (both by returning the empty list); those two can only arise
from `open` + `json.load`, i.e. from the input stage. -/
def parse_snyk_report : ParseInput → PyM (List JSON)
  | .missing => pure []
  | .badJSON => pure []
  | .ok data => do
      let snyk ← pyGetD data "vulnerabilities" (.arr [])
      let items ← pyIterList snyk
      pyMapSeq parseSnykVuln items

/-- The `severity_order` dictionary of `prepare_sca_text`
(`parsca.py:115`), read through `.get(·, 4)`. -/
def severity_order (s : String) : Nat :=
  if s = "CRITICAL" then 0
  else if s = "HIGH" then 1
  else if s = "MEDIUM" then 2
  else if s = "LOW" then 3
  else 4

/-- The sort key `severity_order.get(x['severity'], 4)`
(`parsca.py:116`): a missing key raises `KeyError`, an unhashable
severity raises `TypeError`, any other non-string severity falls to
the default rank 4. -/
def rankKey (x : JSON) : PyM Nat := do
  let sev ← pyGetItemS x "severity"
  match sev with
  | .str s => pure (severity_order s)
  | .arr _ => throw .typeError
  | .obj _ => throw .typeError
  | _ => pure 4

/-- Python's `list.sort` is a stable ascending sort; with keys drawn
from `{0, …, 4}` (see `rankKey_le_four`) the stable sort of a keyed
list is exactly the concatenation of its key classes in increasing key
order, which is how it is realised here. -/
def stableSortRanks (keyed : List (Nat × JSON)) : List (Nat × JSON) :=
  ((List.range 5).map (fun r => keyed.filter (fun p => p.1 == r))).flatten

/-- `vulns.sort(key=lambda x: severity_order.get(x['severity'], 4))`
(`parsca.py:116`): compute every key first (Python's sort calls the
key function once per element, left to right), then stable-sort. -/
def sortVulns (vulns : List JSON) : PyM (List JSON) := do
  let keyed ← pyMapSeq
    (fun x => do
      let r ← rankKey x
      pure (r, x))
    vulns
  pure ((stableSortRanks keyed).map (fun p => p.2))

/-- The `severity_emoji` dictionary of `format_sca_simple`
(`parsca.py:64-72`), read through `.get(·, '-')`. -/
def severityEmoji (sev : JSON) : PyM String :=
  match sev with
  | .str s =>
      pure (if s = "CRITICAL" then "****"
        else if s = "HIGH" then "***"
        else if s = "MEDIUM" then "**"
        else if s = "LOW" then "*"
        else "-")
  | .arr _ => throw .typeError
  | .obj _ => throw .typeError
  | _ => pure "-"

/-- `format_sca_simple` (`parsca.py:62-84`). -/
def format_sca_simple (v : JSON) (idx : Nat) : PyM String := do
  let sev ← pyGetItemS v "severity"
  let emoji ← severityEmoji sev
  let cvss ← pyGetItemS v "cvss"
  let cvss_str :=
    match cvss with
    | .null => "N/A"
    | c => pyStr c
  let pkg ← pyGetItemS v "package"
  let cur ← pyGetItemS v "current_version"
  let recv ← pyGetItemS v "recommended_version"
  let title ← pyGetItemS v "title"
  let cve ← pyGetItemS v "cve"
  pure ("[" ++ toString idx ++ "] " ++ emoji ++ " " ++ pyStr sev ++ "\n" ++
    "Package: " ++ pyStr pkg ++ "\n" ++
    "Current Version: " ++ pyStr cur ++ "\n" ++
    "Fix Version: " ++ pyStr recv ++ "\n" ++
    "Issue: " ++ pyStr title ++ "\n" ++
    "CVE: " ++ pyStr cve ++ " | CVSS: " ++ cvss_str ++ "\n")

/-- The per-severity counting loop of `generate_summary`
(`parsca.py:88-93`): accumulates (critical, high, medium, low); a
severity that is not one of the four keys is not counted. -/
def sevCounts : List JSON → Nat × Nat × Nat × Nat → PyM (Nat × Nat × Nat × Nat)
  | [], acc => pure acc
  | v :: vs, acc => do
      let sev ← pyGetItemS v "severity"
      let acc2 ←
        match sev with
        | .str s =>
            pure (if s = "CRITICAL" then (acc.1 + 1, acc.2.1, acc.2.2.1, acc.2.2.2)
              else if s = "HIGH" then (acc.1, acc.2.1 + 1, acc.2.2.1, acc.2.2.2)
              else if s = "MEDIUM" then (acc.1, acc.2.1, acc.2.2.1 + 1, acc.2.2.2)
              else if s = "LOW" then (acc.1, acc.2.1, acc.2.2.1, acc.2.2.2 + 1)
              else acc)
        | .arr _ => throw PyError.typeError
        | .obj _ => throw PyError.typeError
        | _ => pure acc
      sevCounts vs acc2

/-- The `"=" * 60` separator line of `generate_summary`. -/
def eqLine : String := String.mk (List.replicate 60 (Char.ofNat 61))

/-- `generate_summary` (`parsca.py:86-105`). -/
def generate_summary (vulns : List JSON) : PyM String := do
  let counts ← sevCounts vulns (0, 0, 0, 0)
  pure (eqLine ++ "\n" ++
    "SECURITY VULNERABILITIES SUMMARY\n" ++
    eqLine ++ "\n" ++
    "Total Vulnerabilities: " ++ toString vulns.length ++ "\n" ++
    "  **** Critical: " ++ toString counts.1 ++ "\n" ++
    "  *** High: " ++ toString counts.2.1 ++ "\n" ++
    "  ** Medium: " ++ toString counts.2.2.1 ++ "\n" ++
    "  * Low: " ++ toString counts.2.2.2 ++ "\n" ++
    eqLine ++ "\n\n")

/-- The block-accumulation loop of `prepare_sca_text`
(`parsca.py:121-123`): each block followed by the `"\n"` separator,
indices starting at 1. -/
def scaBlocks : List JSON → Nat → PyM String
  | [], _ => pure ""
  | v :: vs, i => do
      let s ← format_sca_simple v i
      let rest ← scaBlocks vs (i + 1)
      pure (s ++ "\n" ++ rest)

/-- `prepare_sca_text` (`parsca.py:107-129`), up to and including the
file write (the trailing console prints are observational only). -/
def prepare_sca_text (inp : ParseInput) : PyM WriteEffect := do
  let vulns ← parse_snyk_report inp
  let output ←
    if vulns.isEmpty then
      pure "No SCA vulnerabilities found.\n"
    else do
      let sorted ← sortVulns vulns
      let summary ← generate_summary sorted
      let blocks ← scaBlocks sorted 1
      pure (summary ++ blocks)
  pure ⟨true, output⟩

end Parsca

/-!
Concrete documents and the finding records the parsers produce for
them, used by the theorems below.
-/

/-- The finding `parse_sonarqube` produces for the minimal issue
record `{}` — note the empty `location` (empty `component`, line 0). -/
def sonarMinFields : List (String × JSON) :=
  [("type", .str "SAST"),
   ("id", .str "N/A"),
   ("title", .str "No title"),
   ("description", .str "No description"),
   ("severity", .str "UNKNOWN"),
   ("location", .str ""),
   ("file", .str ""),
   ("line", .num 0),
   ("rule", .str "N/A"),
   ("recommendation", .str "Fix this issue - Refer to SonarQube documentation")]

/-- The finding `parse_sarif` produces for the minimal result record
`{}`. -/
def sarifMinFields : List (String × JSON) :=
  [("type", .str "SAST"),
   ("id", .str "N/A"),
   ("title", .str "No title"),
   ("description", .str "No title"),
   ("severity", .str "WARNING"),
   ("location", .str "Unknown"),
   ("file", .str "Unknown"),
   ("line", .num 0),
   ("rule", .str "N/A"),
   ("recommendation", .str "Review and fix N/A")]

/-- The finding `parse_generic` produces for a minimal item `{}`. -/
def genericMinFields : List (String × JSON) :=
  [("type", .str "SAST"),
   ("id", .str "N/A"),
   ("title", .str "No title"),
   ("description", .str "No description"),
   ("severity", .str "UNKNOWN"),
   ("location", .str "Unknown"),
   ("recommendation", .str "Review and fix this issue")]

/-- The record `parse_snyk_report` produces for the minimal
vulnerability `{}` — it has no `location` and no `recommendation`
key at all (its keys are package/current_version/recommended_version/
title/severity/cve/cvss). -/
def snykMinFields : List (String × JSON) :=
  [("package", .str "unknown"),
   ("current_version", .str "unknown"),
   ("recommended_version", .str "No fix available"),
   ("title", .str "No title"),
   ("severity", .str "UNKNOWN"),
   ("cve", .str "N/A"),
   ("cvss", .null)]

/-- The SARIF scenario document of claim C7. -/
def c7doc : JSON :=
  .obj [("runs", .arr [.obj [("results", .arr [.obj
    [("ruleId", .str "R1"),
     ("level", .str "error"),
     ("message", .obj [("text", .str "SQL Injection")]),
     ("locations", .arr [.obj [("physicalLocation", .obj
       [("artifactLocation", .obj [("uri", .str "app.py")]),
        ("region", .obj [("startLine", .num 42)])])]])]])]])]

/-- The finding the SARIF parser produces for `c7doc`. -/
def c7Fields : List (String × JSON) :=
  [("type", .str "SAST"),
   ("id", .str "R1"),
   ("title", .str "SQL Injection"),
   ("description", .str "SQL Injection"),
   ("severity", .str "ERROR"),
   ("location", .str "app.py:42"),
   ("file", .str "app.py"),
   ("line", .num 42),
   ("rule", .str "R1"),
   ("recommendation", .str "Review and fix R1")]

/-- A finding whose recommendation field is 6000 characters long, so
that its rendered block exceeds the 5000-character ceiling. -/
def c1big : JSON :=
  .obj [("recommendation", .str (String.mk (List.replicate 6000 (Char.ofNat 97))))]

/-- The untruncated block `format_sast` builds for `c1big` (87 fixed
characters plus the 6000-character recommendation). -/
def c1text : String :=
  "--- Finding #" ++ toString (1 : Nat) ++ " ---\n" ++
  "Titre: " ++ "SAST finding" ++ "\n" ++
  "Emplacement: " ++ "N/A" ++ "\n" ++
  "Description: " ++ "" ++ "\n" ++
  "Recommandation: " ++ String.mk (List.replicate 6000 (Char.ofNat 97)) ++ "\n"

/-- Four SCA records with severity ranks LOW, CRITICAL, LOW, HIGH (in
that input order), distinguishable by their `package` field. -/
def c8low1 : JSON := .obj [("severity", .str "LOW"), ("package", .str "p1")]

/-- See `c8low1`. -/
def c8crit : JSON := .obj [("severity", .str "CRITICAL"), ("package", .str "p2")]

/-- See `c8low1`. -/
def c8low2 : JSON := .obj [("severity", .str "LOW"), ("package", .str "p3")]

/-- See `c8low1`. -/
def c8high : JSON := .obj [("severity", .str "HIGH"), ("package", .str "p4")]

/-!
## Helper lemmas
-/

/-- Unfolding a successful `Except` bind. -/
theorem bindOk {α β : Type} {ma : PyM α} {f : α → PyM β} {b : β} :
    ma >>= f = .ok b ↔ ∃ a, ma = .ok a ∧ f a = .ok b := by
  cases ma <;> simp [Bind.bind, Except.bind]

/-- Every element of a successful `pyMapSeq` image comes from applying
the function to some element of the source list. -/
theorem pyMapSeq_ok_mem {α β : Type} {f : α → PyM β} :
    ∀ {l : List α} {ys : List β}, pyMapSeq f l = .ok ys →
      ∀ y ∈ ys, ∃ x ∈ l, f x = .ok y := by
  intro l
  induction l with
  | nil =>
      intro ys h y hy
      simp only [pyMapSeq] at h
      cases h
      cases hy
  | cons x xs ih =>
      intro ys h y hy
      simp only [pyMapSeq, bindOk] at h
      obtain ⟨y0, hy0, ys0, hys0, h⟩ := h
      cases h
      rcases List.mem_cons.mp hy with hy | hy
      · exact ⟨x, by simp, hy ▸ hy0⟩
      · obtain ⟨x1, hx1, hfx1⟩ := ih hys0 y hy
        exact ⟨x1, by simp [hx1], hfx1⟩

/-- In `upgradeCond`, the `!= False` conjunct is redundant: the only
values `==`-equal to `False` are falsy, so the guard is truthiness. -/
theorem upgradeCond_eq_truthy (v : JSON) : Parsca.upgradeCond v = truthy v := by
  cases v with
  | null => rfl
  | bool b => cases b <;> rfl
  | num n =>
      simp only [Parsca.upgradeCond, truthy, pyEq, pyEqFuel]
      cases h : (n == 0) <;> simp_all [bne]
  | str s => simp [Parsca.upgradeCond, truthy, pyEq, pyEqFuel]
  | arr xs => simp [Parsca.upgradeCond, truthy, pyEq, pyEqFuel]
  | obj kvs => simp [Parsca.upgradeCond, truthy, pyEq, pyEqFuel]

/-- The reversed-`upgradePath` loop returns the first truthy element,
or the fixed fallback string. -/
theorem findUpgrade_eq_find (l : List JSON) :
    Parsca.findUpgrade l = (l.find? truthy).getD (.str "No fix available") := by
  induction l with
  | nil => rfl
  | cons x xs ih =>
      simp only [Parsca.findUpgrade, upgradeCond_eq_truthy, List.find?]
      cases h : truthy x <;> simp [h, ih]

/-- A key found by `jlookup` is seen by `List.any`. -/
theorem jlookup_isSome_any (kvs : List (String × JSON)) (k : String) :
    (jlookup kvs k).isSome = kvs.any (fun kv => kv.1 == k) := by
  induction kvs with
  | nil => rfl
  | cons kv rest ih =>
      obtain ⟨k0, v0⟩ := kv
      by_cases h : k0 = k <;> simp [jlookup, h, ih]

/-!
## Claims
-/

/-- C10: when the SCA input file does not exist or contains invalid
JSON, `prepare_sca_text` still creates the output path's parent
directories and writes exactly "No SCA vulnerabilities found.\n" —
the same artifact as for a genuinely empty `vulnerabilities` list. -/
theorem C10_sca_failed_parse_artifact :
    Parsca.prepare_sca_text .missing =
      .ok ⟨true, "No SCA vulnerabilities found.\n"⟩ ∧
    Parsca.prepare_sca_text .badJSON =
      .ok ⟨true, "No SCA vulnerabilities found.\n"⟩ ∧
    Parsca.prepare_sca_text (.ok (.obj [("vulnerabilities", .arr [])])) =
      .ok ⟨true, "No SCA vulnerabilities found.\n"⟩ :=
  ⟨rfl, rfl, rfl⟩

/-- C3, counterexample: on invalid JSON, `parse_report` does not
return the empty finding list — it has no exception handler and
propagates the decode error. -/
theorem C3_parse_report_propagates :
    ParserInput.parse_report .badJSON = .error .jsonDecodeError ∧
    (Except.error PyError.jsonDecodeError : PyM (List JSON)) ≠ .ok [] :=
  ⟨rfl, by simp⟩

/-- C3, amended: on invalid JSON (and on a missing file)
`parse_snyk_report` and `parse_zap_json` return the empty finding
list, but `parse_report` propagates the error to its caller. -/
theorem C3_invalid_json_amended :
    Parsca.parse_snyk_report .badJSON = .ok [] ∧
    DastPardast.parse_zap_json .badJSON = .ok [] ∧
    ParserInput.parse_report .badJSON = .error .jsonDecodeError ∧
    Parsca.parse_snyk_report .missing = .ok [] ∧
    DastPardast.parse_zap_json .missing = .ok [] :=
  ⟨rfl, rfl, rfl, rfl, rfl⟩

/-- C9, counterexample: a file whose content is the valid JSON `[1]`
passes `json.load`, and the traversal after the `try` block then
raises `AttributeError` (`data.get` on a list), so `parse_zap_json`
raises instead of returning the empty list. -/
theorem C9_zap_traversal_raises :
    DastPardast.parse_zap_json (.ok (.arr [.num 1])) = .error .attributeError ∧
    (Except.error PyError.attributeError : PyM (List JSON)) ≠ .ok [] :=
  ⟨rfl, by simp⟩

/-- C9, amended: every exception of the `open` + `json.load` stage is
caught and yields the empty finding list; a well-formed document still
parses (one alert shown); but exceptions raised by the `site`/`alerts`
traversal after the handler propagate (see the counterexample). -/
theorem C9_zap_file_stage_caught :
    DastPardast.parse_zap_json .missing = .ok [] ∧
    DastPardast.parse_zap_json .badJSON = .ok [] ∧
    DastPardast.parse_zap_json
      (.ok (.obj [("site",
        .arr [.obj [("alerts", .arr [.obj [("alert", .str "XSS")]])]])])) =
      .ok [.obj
        [("type", .str "DAST"),
         ("title", .str "XSS"),
         ("description", .str ""),
         ("location", .str "N/A"),
         ("recommendation", .str "Vérifier la configuration et corriger la vulnérabilité."),
         ("severity", .str "Unknown"),
         ("confidence", .str "Unknown"),
         ("cweid", .str "N/A"),
         ("wascid", .str "N/A")]] :=
  ⟨rfl, rfl, rfl⟩

/-- C2, counterexample: the minimal SonarQube issue record `{}` parses
to a finding whose `location` is the empty string (empty `component`,
line 0), contradicting "location … non-empty" for that dialect. -/
theorem C2_sonarqube_empty_location :
    ParserInput.parse_sonarqube (.obj [("issues", .arr [.obj []])]) =
      .ok [.obj sonarMinFields] ∧
    jlookup sonarMinFields "location" = some (.str "") :=
  ⟨rfl, rfl⟩

/-- C2, amended: parsing a minimal record never raises in any dialect;
`title` and `severity` are always non-empty; `recommendation` is
non-empty for the SonarQube/SARIF/generic dialects and `location` is
non-empty for SARIF/generic — but the SonarQube `location` is the
empty string, and the dependency-scan record carries
`package`/`current_version`/`recommended_version` instead of
`location`/`recommendation` keys (its `recommended_version` is
non-empty). -/
theorem C2_minimal_records_amended :
    (ParserInput.parse_sonarqube (.obj [("issues", .arr [.obj []])]) =
        .ok [.obj sonarMinFields] ∧
      (∃ s, jlookup sonarMinFields "title" = some (.str s) ∧ s ≠ "") ∧
      (∃ s, jlookup sonarMinFields "severity" = some (.str s) ∧ s ≠ "") ∧
      (∃ s, jlookup sonarMinFields "recommendation" = some (.str s) ∧ s ≠ "") ∧
      jlookup sonarMinFields "location" = some (.str "")) ∧
    (ParserInput.parse_sarif
        (.obj [("runs", .arr [.obj [("results", .arr [.obj []])]])]) =
        .ok [.obj sarifMinFields] ∧
      (∃ s, jlookup sarifMinFields "title" = some (.str s) ∧ s ≠ "") ∧
      (∃ s, jlookup sarifMinFields "severity" = some (.str s) ∧ s ≠ "") ∧
      (∃ s, jlookup sarifMinFields "recommendation" = some (.str s) ∧ s ≠ "") ∧
      (∃ s, jlookup sarifMinFields "location" = some (.str s) ∧ s ≠ "")) ∧
    (ParserInput.parse_generic (.obj [("results", .arr [.obj []])]) =
        [.obj genericMinFields] ∧
      (∃ s, jlookup genericMinFields "title" = some (.str s) ∧ s ≠ "") ∧
      (∃ s, jlookup genericMinFields "severity" = some (.str s) ∧ s ≠ "") ∧
      (∃ s, jlookup genericMinFields "recommendation" = some (.str s) ∧ s ≠ "") ∧
      (∃ s, jlookup genericMinFields "location" = some (.str s) ∧ s ≠ "")) ∧
    (Parsca.parse_snyk_report (.ok (.obj [("vulnerabilities", .arr [.obj []])])) =
        .ok [.obj snykMinFields] ∧
      (∃ s, jlookup snykMinFields "title" = some (.str s) ∧ s ≠ "") ∧
      (∃ s, jlookup snykMinFields "severity" = some (.str s) ∧ s ≠ "") ∧
      (∃ s, jlookup snykMinFields "recommended_version" = some (.str s) ∧ s ≠ "") ∧
      jlookup snykMinFields "location" = none ∧
      jlookup snykMinFields "recommendation" = none) :=
  ⟨⟨rfl, ⟨"No title", rfl, by decide⟩, ⟨"UNKNOWN", rfl, by decide⟩,
    ⟨"Fix this issue - Refer to SonarQube documentation", rfl, by decide⟩, rfl⟩,
   ⟨rfl, ⟨"No title", rfl, by decide⟩, ⟨"WARNING", rfl, by decide⟩,
    ⟨"Review and fix N/A", rfl, by decide⟩, ⟨"Unknown", rfl, by decide⟩⟩,
   ⟨rfl, ⟨"No title", rfl, by decide⟩, ⟨"UNKNOWN", rfl, by decide⟩,
    ⟨"Review and fix this issue", rfl, by decide⟩, ⟨"Unknown", rfl, by decide⟩⟩,
   ⟨rfl, ⟨"No title", rfl, by decide⟩, ⟨"UNKNOWN", rfl, by decide⟩,
    ⟨"No fix available", rfl, by decide⟩, rfl, rfl⟩⟩

/-- C5: `get_fixed_version` resolves the recommended fix version as
(a) the first element of a non-empty `fixedIn` list, else (b) the
first truthy entry of `upgradePath` scanned from its end, else (c) the
literal "No fix available"; in particular `fixedIn: []` with
`upgradePath: [false, "1.2.3", "1.2.4"]` resolves to "1.2.4". -/
theorem C5_fix_version_resolution (fi up : List JSON) :
    (∀ f rest, fi = f :: rest →
      Parsca.get_fixed_version
        (.obj [("fixedIn", .arr fi), ("upgradePath", .arr up)]) = .ok f) ∧
    (fi = [] →
      Parsca.get_fixed_version
        (.obj [("fixedIn", .arr fi), ("upgradePath", .arr up)]) =
        .ok ((up.reverse.find? truthy).getD (.str "No fix available"))) ∧
    Parsca.get_fixed_version
      (.obj [("fixedIn", .arr []),
             ("upgradePath", .arr [.bool false, .str "1.2.3", .str "1.2.4"])]) =
      .ok (.str "1.2.4") := by
  refine ⟨?_, ?_, rfl⟩
  · intro f rest h
    subst h
    simp [Parsca.get_fixed_version, pyGetD, jget, jlookup, truthy, pyGetItemS,
      pyGetItem0, Bind.bind, Except.bind, pure, Except.pure]
  · intro h
    subst h
    simp [Parsca.get_fixed_version, pyGetD, jget, jlookup, truthy, pyIterList,
      findUpgrade_eq_find, Bind.bind, Except.bind, pure, Except.pure]

/-- C5 witness: both hypothesised branches at concrete records. -/
theorem C5_fix_version_witness :
    Parsca.get_fixed_version
      (.obj [("fixedIn", .arr [.str "9.9.9", .str "9.9.8"]), ("upgradePath", .arr [])]) =
      .ok (.str "9.9.9") ∧
    Parsca.get_fixed_version
      (.obj [("fixedIn", .arr []), ("upgradePath", .arr [.str "3.1.4"])]) =
      .ok (.str "3.1.4") :=
  ⟨(C5_fix_version_resolution [.str "9.9.9", .str "9.9.8"] []).1
      (.str "9.9.9") [.str "9.9.8"] rfl,
   by
    have h := (C5_fix_version_resolution [] [.str "3.1.4"]).2.1 rfl
    simpa using h⟩

/-- C7: the claim's SARIF scenario yields exactly one finding with
location "app.py:42", severity "ERROR" and recommendation "Review and
fix R1"; in general the SARIF severity is the `level` field uppercased
and defaults to "WARNING" when `level` is absent. -/
theorem C7_sarif_scenario :
    ParserInput.parse_sarif c7doc = .ok [.obj c7Fields] ∧
    jlookup c7Fields "location" = some (.str "app.py:42") ∧
    jlookup c7Fields "severity" = some (.str "ERROR") ∧
    jlookup c7Fields "recommendation" = some (.str "Review and fix R1") ∧
    (∀ lvl : String,
      ParserInput.parseSarifResult (.obj [("level", .str lvl)]) =
        .ok (.obj
          [("type", .str "SAST"),
           ("id", .str "N/A"),
           ("title", .str "No title"),
           ("description", .str "No title"),
           ("severity", .str (strUpper lvl)),
           ("location", .str "Unknown"),
           ("file", .str "Unknown"),
           ("line", .num 0),
           ("rule", .str "N/A"),
           ("recommendation", .str "Review and fix N/A")])) ∧
    ParserInput.parseSarifResult (.obj []) = .ok (.obj sarifMinFields) :=
  ⟨rfl, rfl, rfl, rfl, fun _ => rfl, rfl⟩

/-- A block at most the ceiling long is returned unchanged. -/
theorem truncateItem_short (t : String) (h : t.length ≤ MAX_CHARS_PER_ITEM) :
    truncateItem t = t := by
  unfold truncateItem
  rw [if_neg]
  omega

/-- A block over the ceiling is cut to the first `5000 − 12`
characters plus the 16-character marker line, 5004 characters in
total. -/
theorem truncateItem_long (t : String) (h : MAX_CHARS_PER_ITEM < t.length) :
    truncateItem t =
      String.mk (t.data.take (MAX_CHARS_PER_ITEM - 12)) ++ "\n[...truncated]\n" ∧
    (truncateItem t).length = 5004 := by
  have e : truncateItem t =
      String.mk (t.data.take (MAX_CHARS_PER_ITEM - 12)) ++ "\n[...truncated]\n" := by
    unfold truncateItem
    rw [if_pos]
    omega
  refine ⟨e, ?_⟩
  rw [e, String.length_append]
  have hd : t.data.length = t.length := rfl
  have h1 : (String.mk (t.data.take (MAX_CHARS_PER_ITEM - 12))).length =
      MAX_CHARS_PER_ITEM - 12 := by
    show (t.data.take (MAX_CHARS_PER_ITEM - 12)).length = MAX_CHARS_PER_ITEM - 12
    rw [List.length_take]
    omega
  have h2 : ("\n[...truncated]\n" : String).length = 16 := rfl
  rw [h1, h2]
  rfl

/-- Every truncated block is at most 5004 characters. -/
theorem truncateItem_le (t : String) : (truncateItem t).length ≤ max t.length 5004 := by
  by_cases h : t.length ≤ MAX_CHARS_PER_ITEM
  · rw [truncateItem_short t h]
    omega
  · have := (truncateItem_long t (by omega)).2
    omega

/-- A successful `format_sast` render is the truncation of some block. -/
theorem format_sast_shape (v : JSON) (i : Nat) (s : String)
    (h : Parsast.format_sast v i = .ok s) : ∃ t, s = truncateItem t := by
  simp only [Parsast.format_sast, bindOk] at h
  obtain ⟨t1, -, t2, -, d1, -, desc, -, l1, -, r1, -, h⟩ := h
  simp only [pure, Except.pure, Except.ok.injEq] at h
  exact ⟨_, h.symm⟩

/-- A successful `format_dast` render (ZAP variant) is the truncation
of some block. -/
theorem format_dast_shape (v : JSON) (i : Nat) (s : String)
    (h : DastPardast.format_dast v i = .ok s) : ∃ t, s = truncateItem t := by
  simp only [DastPardast.format_dast, bindOk] at h
  obtain ⟨t1, -, t2, -, d1, -, desc, -, u1, -, r1, -, sev, -, conf, -, cwe, -, wasc, -, h⟩ := h
  simp only [pure, Except.pure, Except.ok.injEq] at h
  exact ⟨_, h.symm⟩

/-- Every truncated block is at most 5004 characters long. -/
theorem truncateItem_le5004 (t : String) : (truncateItem t).length ≤ 5004 := by
  have hmax : MAX_CHARS_PER_ITEM = 5000 := rfl
  by_cases h : t.length ≤ MAX_CHARS_PER_ITEM
  · rw [truncateItem_short t h]
    omega
  · have := (truncateItem_long t (by omega)).2
    omega

/-- C1, amended: a per-finding block of `format_sast`/`format_dast` is
at most `5000 − 12 + 16 = 5004` characters (not 5000): renders of at
most 5000 characters pass unchanged, longer renders are cut to the
first `5000 − 12` characters plus the 16-character marker
`"\n[...truncated]\n"`, for exactly 5004. -/
theorem C1_truncation_amended :
    (∀ t : String, t.length ≤ MAX_CHARS_PER_ITEM → truncateItem t = t) ∧
    (∀ t : String, MAX_CHARS_PER_ITEM < t.length →
      truncateItem t =
        String.mk (t.data.take (MAX_CHARS_PER_ITEM - 12)) ++ "\n[...truncated]\n" ∧
      (truncateItem t).length = 5004) ∧
    (∀ (v : JSON) (i : Nat) (s : String),
      Parsast.format_sast v i = .ok s → s.length ≤ 5004) ∧
    (∀ (v : JSON) (i : Nat) (s : String),
      DastPardast.format_dast v i = .ok s → s.length ≤ 5004) := by
  refine ⟨truncateItem_short, truncateItem_long, ?_, ?_⟩
  · intro v i s h
    obtain ⟨t, rfl⟩ := format_sast_shape v i s h
    exact truncateItem_le5004 t
  · intro v i s h
    obtain ⟨t, rfl⟩ := format_dast_shape v i s h
    exact truncateItem_le5004 t

/-- C1 witness: the two truncation branches at concrete block texts. -/
theorem C1_truncation_witness :
    truncateItem "short block" = "short block" ∧
    (truncateItem (String.mk (List.replicate 5001 (Char.ofNat 97)))).length = 5004 :=
  ⟨C1_truncation_amended.1 "short block" (by decide),
   (C1_truncation_amended.2.1 (String.mk (List.replicate 5001 (Char.ofNat 97)))
     (by show MAX_CHARS_PER_ITEM < (List.replicate 5001 (Char.ofNat 97)).length
         rw [List.length_replicate]
         decide)).2⟩

/-- C1, counterexample: a finding with a 6000-character recommendation
renders (under `format_sast`) to a block of exactly 5004 characters,
contradicting the claimed 5000-character bound. -/
theorem C1_truncation_over_limit :
    (Parsast.format_sast c1big 1).map String.length = Except.ok 5004 ∧
    ¬ (5004 ≤ 5000) := by
  have hrep : (String.mk (List.replicate 6000 (Char.ofNat 97))).length = 6000 := by
    show (List.replicate 6000 (Char.ofNat 97)).length = 6000
    rw [List.length_replicate]
  have hlen : c1text.length = 6087 := by
    unfold c1text
    simp only [String.length_append, hrep]
    decide
  have h1 : Parsast.format_sast c1big 1 = .ok (truncateItem c1text) := rfl
  have h2 : (truncateItem c1text).length = 5004 :=
    (truncateItem_long c1text (by rw [hlen]; decide)).2
  refine ⟨?_, by decide⟩
  rw [h1]
  simp [Except.map, h2]

/-- `P` holds of whatever value a Python computation succeeds with
(vacuously true of a raising computation). -/
def OkImplies {α : Type} (m : PyM α) (P : α → Prop) : Prop :=
  ∀ a, m = .ok a → P a

/-- Weakest-precondition rule for bind, forgetting the bound value. -/
theorem okImplies_bind {α β : Type} {m : PyM α} {f : α → PyM β} {P : β → Prop}
    (h : ∀ a, OkImplies (f a) P) : OkImplies (m >>= f) P := by
  intro b hb
  rcases bindOk.mp hb with ⟨a, -, hfa⟩
  exact h a b hfa

/-- Weakest-precondition rule for bind, carrying a fact about the
bound value. -/
theorem okImplies_bindQ {α β : Type} {m : PyM α} {f : α → PyM β}
    {P : β → Prop} {Q : α → Prop}
    (hm : OkImplies m Q) (h : ∀ a, Q a → OkImplies (f a) P) :
    OkImplies (m >>= f) P := by
  intro b hb
  rcases bindOk.mp hb with ⟨a, ha, hfa⟩
  exact h a (hm a ha) b hfa

/-- Weakest-precondition rule for `pure`. -/
theorem okImplies_pure {α : Type} {a : α} {P : α → Prop} (h : P a) :
    OkImplies (pure a) P := by
  intro b hb
  simp only [pure, Except.pure, Except.ok.injEq] at hb
  exact hb ▸ h

/-- A raising computation satisfies any postcondition. -/
theorem okImplies_throw {α : Type} {e : PyError} {P : α → Prop} :
    OkImplies (throw e) P := by
  intro b hb
  exact Except.noConfusion hb

/-- Weakest-precondition rule for a two-way branch. -/
theorem okImplies_ite {α : Type} {c : Prop} [Decidable c] {m1 m2 : PyM α}
    {P : α → Prop} (h1 : OkImplies m1 P) (h2 : OkImplies m2 P) :
    OkImplies (if c then m1 else m2) P := by
  split <;> assumption

/-- A sequential map produces only values satisfying the per-element
postcondition. -/
theorem pyMapSeq_okImplies {α β : Type} {f : α → PyM β} {P : β → Prop}
    (hf : ∀ x, OkImplies (f x) P) :
    ∀ l : List α, OkImplies (pyMapSeq f l) (fun ys => ∀ y ∈ ys, P y) := by
  intro l
  induction l with
  | nil =>
      intro ys h y hy
      simp only [pyMapSeq, pure, Except.pure, Except.ok.injEq] at h
      subst h
      cases hy
  | cons x xs ih =>
      intro ys h y hy
      rcases bindOk.mp h with ⟨y0, hy0, h2⟩
      rcases bindOk.mp h2 with ⟨ys0, hys0, h3⟩
      simp only [pure, Except.pure, Except.ok.injEq] at h3
      subst h3
      rcases List.mem_cons.mp hy with rfl | hmem
      · exact hf x y hy0
      · exact ih ys0 hys0 y hmem

/-- Every finding built by the SonarQube loop body has type "SAST". -/
theorem parseSonarIssue_type (issue : JSON) :
    OkImplies (ParserInput.parseSonarIssue issue)
      (fun v => pyGetD v "type" .null = .ok (.str "SAST")) := by
  unfold ParserInput.parseSonarIssue
  repeat
    first
    | exact okImplies_pure rfl
    | exact okImplies_throw
    | apply okImplies_ite
    | (apply okImplies_bind; intro _)

/-- Every finding built by the SARIF loop body has type "SAST". -/
theorem parseSarifResult_type (result : JSON) :
    OkImplies (ParserInput.parseSarifResult result)
      (fun v => pyGetD v "type" .null = .ok (.str "SAST")) := by
  unfold ParserInput.parseSarifResult
  repeat
    first
    | exact okImplies_pure rfl
    | exact okImplies_throw
    | apply okImplies_ite
    | (apply okImplies_bind; intro _)

/-- Every finding built by the generic fallback has type "SAST". -/
theorem parse_generic_type (data v : JSON) (h : v ∈ ParserInput.parse_generic data) :
    pyGetD v "type" .null = .ok (.str "SAST") := by
  cases data with
  | null => cases h
  | bool b => cases h
  | num n => cases h
  | str s => cases h
  | arr xs => cases h
  | obj kvs =>
      simp only [ParserInput.parse_generic, List.mem_flatten, List.mem_map] at h
      obtain ⟨inner, ⟨kv, -, hinner⟩, hv⟩ := h
      subst hinner
      rcases kv with ⟨k, val⟩
      cases val with
      | null => cases hv
      | bool b => cases hv
      | num n => cases hv
      | str s => cases hv
      | obj kvs2 => cases hv
      | arr items =>
          simp only [List.mem_filterMap] at hv
          obtain ⟨it, -, hit⟩ := hv
          cases it with
          | null => cases hit
          | bool b => cases hit
          | num n => cases hit
          | str s => cases hit
          | arr xs2 => cases hit
          | obj fields =>
              simp only [Option.some.injEq] at hit
              subst hit
              rfl

/-- All SonarQube-parsed findings have type "SAST". -/
theorem parse_sonarqube_types (data : JSON) :
    OkImplies (ParserInput.parse_sonarqube data)
      (fun l => ∀ v ∈ l, pyGetD v "type" .null = .ok (.str "SAST")) := by
  unfold ParserInput.parse_sonarqube
  apply okImplies_bind
  intro issues
  apply okImplies_bind
  intro issueList
  exact pyMapSeq_okImplies (fun issue => parseSonarIssue_type issue) issueList

/-- All findings of one SARIF run have type "SAST". -/
theorem parse_sarif_run_types (run : JSON) :
    OkImplies (do
      let results ← pyGetD run "results" (.arr [])
      let resultList ← pyIterList results
      pyMapSeq ParserInput.parseSarifResult resultList)
      (fun inner => ∀ v ∈ inner, pyGetD v "type" .null = .ok (.str "SAST")) := by
  apply okImplies_bind
  intro results
  apply okImplies_bind
  intro resultList
  exact pyMapSeq_okImplies (fun r => parseSarifResult_type r) resultList

/-- All SARIF-parsed findings have type "SAST". -/
theorem parse_sarif_types (data : JSON) :
    OkImplies (ParserInput.parse_sarif data)
      (fun l => ∀ v ∈ l, pyGetD v "type" .null = .ok (.str "SAST")) := by
  unfold ParserInput.parse_sarif
  apply okImplies_bind
  intro runs
  apply okImplies_bind
  intro runList
  refine okImplies_bindQ (pyMapSeq_okImplies parse_sarif_run_types runList) ?_
  intro nested hnested
  apply okImplies_pure
  intro v hv
  rw [List.mem_flatten] at hv
  obtain ⟨inner, hinner, hvin⟩ := hv
  exact hnested inner hinner v hvin

/-- Whatever dialect `parse_report` routes to, every finding it
returns has type "SAST" — no route ever assigns "DAST". -/
theorem parse_report_types (inp : ParseInput) :
    OkImplies (ParserInput.parse_report inp)
      (fun l => ∀ v ∈ l, pyGetD v "type" .null = .ok (.str "SAST")) := by
  cases inp with
  | missing => exact okImplies_throw
  | badJSON => exact okImplies_throw
  | ok data =>
      show OkImplies (ParserInput.parse_report_data data) _
      unfold ParserInput.parse_report_data
      repeat
        first
        | exact parse_sonarqube_types data
        | exact parse_sarif_types data
        | exact okImplies_pure (fun v hv => parse_generic_type data v hv)
        | apply okImplies_ite
        | (apply okImplies_bind; intro _)

/-- Filtering a list of SAST-typed findings for type "DAST" yields the
empty list. -/
theorem filter_dast_empty (l : List JSON)
    (h : ∀ v ∈ l, pyGetD v "type" .null = .ok (.str "SAST")) :
    pyFilterSeq Pardast.isDastPred l = .ok [] := by
  induction l with
  | nil => rfl
  | cons x xs ih =>
      have hx := h x (List.mem_cons_self x xs)
      have hpx : Pardast.isDastPred x = .ok false := by
        simp [Pardast.isDastPred, hx, Bind.bind, Except.bind, pure, Except.pure,
          pyEq, pyEqFuel]
      have ih2 := ih (fun v hv => h v (List.mem_cons_of_mem x hv))
      simp [pyFilterSeq, hpx, ih2, Bind.bind, Except.bind, pure, Except.pure]

/-- C4: for every report accepted by the unified parser, all findings
have type "SAST", so `prepare_dast_text` (the `pardast.py` variant fed
by `parse_report`) always writes the header plus the sentinel
"Aucune vulnérabilité DAST trouvée." and zero per-finding blocks. -/
theorem C4_prepare_dast_always_empty (inp : ParseInput) (l : List JSON)
    (h : ParserInput.parse_report inp = .ok l) :
    (∀ v ∈ l, pyGetD v "type" .null = .ok (.str "SAST")) ∧
    Pardast.prepare_dast_text inp =
      .ok ⟨true, Pardast.dastHeader ++ "Aucune vulnérabilité DAST trouvée.\n"⟩ := by
  have ht := parse_report_types inp l h
  refine ⟨ht, ?_⟩
  have hf := filter_dast_empty l ht
  simp [Pardast.prepare_dast_text, h, hf, Bind.bind, Except.bind, pure, Except.pure]

/-- C4 witness: a SonarQube report with an empty issue list. -/
theorem C4_prepare_dast_witness :
    Pardast.prepare_dast_text (.ok (.obj [("issues", .arr [])])) =
      .ok ⟨true, Pardast.dastHeader ++ "Aucune vulnérabilité DAST trouvée.\n"⟩ :=
  (C4_prepare_dast_always_empty (.ok (.obj [("issues", .arr [])])) [] rfl).2

/-- An element of the rank-`q` class has key `q`. -/
theorem mem_rank_class {keyed : List (Nat × JSON)} {q : Nat} {p : Nat × JSON}
    (h : p ∈ keyed.filter (fun p => p.1 == q)) : p.1 = q := by
  have := List.of_mem_filter h
  simpa using this

/-- Filtering one rank class by another rank keeps it (same rank) or
empties it (different ranks). -/
theorem filter_rank_class (keyed : List (Nat × JSON)) (q r : Nat) :
    (keyed.filter (fun p => p.1 == q)).filter (fun p => p.1 == r) =
      if q = r then keyed.filter (fun p => p.1 == r) else [] := by
  by_cases hqr : q = r
  · subst hqr
    rw [if_pos rfl, List.filter_filter]
    simp
  · rw [if_neg hqr]
    refine List.filter_eq_nil_iff.mpr ?_
    intro p hp
    have h1 : p.1 = q := mem_rank_class hp
    simp [h1, hqr]

/-- Filtering the concatenated rank classes over a duplicate-free rank
list recovers the original class (stability of the realised sort). -/
theorem filter_flatten_classes (keyed : List (Nat × JSON)) :
    ∀ rs : List Nat, rs.Nodup → ∀ r : Nat,
      ((rs.map (fun q => keyed.filter (fun p => p.1 == q))).flatten).filter
          (fun p => p.1 == r) =
        if r ∈ rs then keyed.filter (fun p => p.1 == r) else [] := by
  intro rs
  induction rs with
  | nil => intro _ r; simp
  | cons q qs ih =>
      intro hnd r
      simp only [List.map_cons, List.flatten_cons, List.filter_append]
      rw [ih hnd.of_cons r, filter_rank_class]
      by_cases hqr : q = r
      · subst hqr
        have hnotin : q ∉ qs := (List.nodup_cons.mp hnd).1
        simp [hnotin]
      · have hrq : ¬ r = q := fun he => hqr he.symm
        by_cases hr : r ∈ qs <;> simp [hqr, hr, hrq, List.mem_cons]

/-- Concatenating the rank classes in increasing rank order yields a
list whose keys are ascending. -/
theorem pairwise_flatten_classes (keyed : List (Nat × JSON)) :
    ∀ rs : List Nat, rs.Pairwise (· < ·) →
      ((rs.map (fun q => keyed.filter (fun p => p.1 == q))).flatten).Pairwise
        (fun a b => a.1 ≤ b.1) := by
  intro rs
  induction rs with
  | nil => intro _; simp
  | cons q qs ih =>
      intro hp
      simp only [List.map_cons, List.flatten_cons]
      rw [List.pairwise_append]
      refine ⟨?_, ih hp.of_cons, ?_⟩
      · refine List.pairwise_of_forall_mem_list ?_
        intro a ha b hb
        rw [mem_rank_class ha, mem_rank_class hb]
      · intro a ha b hb
        have ha1 : a.1 = q := mem_rank_class ha
        rw [List.mem_flatten] at hb
        obtain ⟨inner, hinner, hbin⟩ := hb
        rw [List.mem_map] at hinner
        obtain ⟨q2, hq2, hinner⟩ := hinner
        subst hinner
        have hb1 : b.1 = q2 := mem_rank_class hbin
        have hlt : q < q2 := (List.pairwise_cons.mp hp).1 q2 hq2
        omega

/-- The sort key is always at most 4. -/
theorem rankKey_le_four (x : JSON) : OkImplies (Parsca.rankKey x) (· ≤ 4) := by
  unfold Parsca.rankKey
  apply okImplies_bind
  intro sev
  cases sev with
  | null => exact okImplies_pure (by omega)
  | bool b => exact okImplies_pure (by omega)
  | num n => exact okImplies_pure (by omega)
  | str s =>
      refine okImplies_pure ?_
      unfold Parsca.severity_order
      split_ifs <;> omega
  | arr xs => exact okImplies_throw
  | obj kvs => exact okImplies_throw

/-- C8: the SCA formatter's sort is an ascending stable sort by
severity rank — the sorted list's ranks are pairwise non-decreasing,
each rank class keeps exactly the original elements in their original
relative order, the rank is always in {0,…,4}, and the claim's
concrete scenario [LOW, CRITICAL, LOW, HIGH] sorts to
[CRITICAL, HIGH, LOW, LOW] with the two LOW findings in their original
order. -/
theorem C8_sca_sort_stable :
    (∀ keyed : List (Nat × JSON),
      (Parsca.stableSortRanks keyed).Pairwise (fun a b => a.1 ≤ b.1)) ∧
    (∀ keyed : List (Nat × JSON), (∀ p ∈ keyed, p.1 ≤ 4) →
      ∀ r : Nat, (Parsca.stableSortRanks keyed).filter (fun p => p.1 == r) =
        keyed.filter (fun p => p.1 == r)) ∧
    (∀ (x : JSON) (r : Nat), Parsca.rankKey x = .ok r → r ≤ 4) ∧
    Parsca.sortVulns [c8low1, c8crit, c8low2, c8high] =
      .ok [c8crit, c8high, c8low1, c8low2] := by
  refine ⟨?_, ?_, ?_, rfl⟩
  · intro keyed
    exact pairwise_flatten_classes keyed (List.range 5) (List.pairwise_lt_range 5)
  · intro keyed hbound r
    unfold Parsca.stableSortRanks
    rw [filter_flatten_classes keyed (List.range 5) (List.nodup_range 5) r]
    by_cases hr : r ∈ List.range 5
    · rw [if_pos hr]
    · rw [if_neg hr]
      refine (List.filter_eq_nil_iff.mpr ?_).symm
      intro p hp
      have h4 := hbound p hp
      have hne : r ≠ p.1 := by
        intro he
        exact hr (List.mem_range.mpr (by omega))
      simp only [beq_iff_eq]
      omega
  · exact fun x r h => rankKey_le_four x r h

/-- C8 witness: stability at a concrete keyed list, rank 3. -/
theorem C8_sort_witness :
    (Parsca.stableSortRanks [(3, JSON.str "a"), (0, JSON.str "b")]).filter
        (fun p => p.1 == 3) = [(3, JSON.str "a")] := by
  have h := C8_sca_sort_stable.2.1 [(3, JSON.str "a"), (0, JSON.str "b")]
    (by decide) 3
  rw [h]
  rfl

/-- C6, amended: the detector's precedence is: `issues` present →
SonarQube; else `$schema` present with a string value containing
"sarif" → SARIF; else `runs` present → SARIF; else generic fallback —
and an object with both `issues` and `runs` always goes to SonarQube.
The amendment: when `$schema` is present but its value does not
support the substring test (e.g. a number), the detector raises
`TypeError` instead of routing (see the counterexample), so the
SARIF/generic cases additionally require the `$schema` value, if
present, to be a string. -/
theorem C6_routing_amended (kvs : List (String × JSON)) :
    (kvs.any (fun kv => kv.1 == "issues") = true →
      ParserInput.parse_report_data (.obj kvs) =
        ParserInput.parse_sonarqube (.obj kvs)) ∧
    (kvs.any (fun kv => kv.1 == "issues") = false →
      ∀ s : String, jlookup kvs "$schema" = some (.str s) →
      listHasSub "sarif".data s.data = true →
      ParserInput.parse_report_data (.obj kvs) =
        ParserInput.parse_sarif (.obj kvs)) ∧
    (kvs.any (fun kv => kv.1 == "issues") = false →
      (jlookup kvs "$schema" = none ∨
        ∃ s : String, jlookup kvs "$schema" = some (.str s) ∧
          listHasSub "sarif".data s.data = false) →
      kvs.any (fun kv => kv.1 == "runs") = true →
      ParserInput.parse_report_data (.obj kvs) =
        ParserInput.parse_sarif (.obj kvs)) ∧
    (kvs.any (fun kv => kv.1 == "issues") = false →
      (jlookup kvs "$schema" = none ∨
        ∃ s : String, jlookup kvs "$schema" = some (.str s) ∧
          listHasSub "sarif".data s.data = false) →
      kvs.any (fun kv => kv.1 == "runs") = false →
      ParserInput.parse_report_data (.obj kvs) =
        .ok (ParserInput.parse_generic (.obj kvs))) ∧
    (kvs.any (fun kv => kv.1 == "issues") = true →
      kvs.any (fun kv => kv.1 == "runs") = true →
      ParserInput.parse_report_data (.obj kvs) =
        ParserInput.parse_sonarqube (.obj kvs)) := by
  refine ⟨?_, ?_, ?_, ?_, ?_⟩
  · intro h1
    simp [ParserInput.parse_report_data, pyIn, h1, Bind.bind, Except.bind,
      pure, Except.pure]
  · intro h1 s hs hsub
    have hany : kvs.any (fun kv => kv.1 == "$schema") = true := by
      rw [← jlookup_isSome_any, hs]
      rfl
    simp [ParserInput.parse_report_data, pyIn, h1, hany, pyGetD, jget, hs, hsub,
      Bind.bind, Except.bind, pure, Except.pure]
  · intro h1 hopt h3
    rcases hopt with hnone | ⟨s, hs, hsub⟩
    · have hany : kvs.any (fun kv => kv.1 == "$schema") = false := by
        rw [← jlookup_isSome_any, hnone]
        rfl
      simp [ParserInput.parse_report_data, pyIn, h1, hany, h3,
        Bind.bind, Except.bind, pure, Except.pure]
    · have hany : kvs.any (fun kv => kv.1 == "$schema") = true := by
        rw [← jlookup_isSome_any, hs]
        rfl
      simp [ParserInput.parse_report_data, pyIn, h1, hany, pyGetD, jget, hs,
        hsub, h3, Bind.bind, Except.bind, pure, Except.pure]
  · intro h1 hopt h3
    rcases hopt with hnone | ⟨s, hs, hsub⟩
    · have hany : kvs.any (fun kv => kv.1 == "$schema") = false := by
        rw [← jlookup_isSome_any, hnone]
        rfl
      simp [ParserInput.parse_report_data, pyIn, h1, hany, h3,
        Bind.bind, Except.bind, pure, Except.pure]
    · have hany : kvs.any (fun kv => kv.1 == "$schema") = true := by
        rw [← jlookup_isSome_any, hs]
        rfl
      simp [ParserInput.parse_report_data, pyIn, h1, hany, pyGetD, jget, hs,
        hsub, h3, Bind.bind, Except.bind, pure, Except.pure]
  · intro h1 _
    simp [ParserInput.parse_report_data, pyIn, h1, Bind.bind, Except.bind,
      pure, Except.pure]

/-- C6 witness: an object with both `issues` and `runs` is routed to
the SonarQube parser, and a string `$schema` containing "sarif" routes
to the SARIF parser. -/
theorem C6_routing_witness :
    ParserInput.parse_report_data
        (.obj [("issues", .arr []), ("runs", .arr [])]) =
      ParserInput.parse_sonarqube (.obj [("issues", .arr []), ("runs", .arr [])]) ∧
    ParserInput.parse_report_data
        (.obj [("$schema", .str "docs/sarif-schema-2.1.0.json")]) =
      ParserInput.parse_sarif (.obj [("$schema", .str "docs/sarif-schema-2.1.0.json")]) :=
  ⟨(C6_routing_amended [("issues", .arr []), ("runs", .arr [])]).2.2.2.2
      (by decide) (by decide),
   (C6_routing_amended [("$schema", .str "docs/sarif-schema-2.1.0.json")]).2.1
      (by decide) "docs/sarif-schema-2.1.0.json" rfl (by decide)⟩

/-- C6, counterexample: `{"$schema": 1, "runs": []}` should, by the
claim, be routed to the SARIF parser (which would return zero
findings); instead the substring test `'sarif' in 1` raises
`TypeError`. -/
theorem C6_schema_type_error :
    ParserInput.parse_report_data (.obj [("$schema", .num 1), ("runs", .arr [])]) =
      .error .typeError ∧
    ParserInput.parse_sarif (.obj [("$schema", .num 1), ("runs", .arr [])]) =
      .ok [] :=
  ⟨rfl, rfl⟩
